/-
Verification of the AAA four and five diamond hotels ETL script
(`aaa_four_and_five_diamond_hotels.py`).

The script parses with `xml.etree.ElementTree`, so the embedding starts from
the parsed element tree: `Element` mirrors `ET.Element` (tag, attributes,
text, children).  XML entity decoding performed by the XML parser itself is
therefore already applied to the `text` fields of the tree; the separate
HTML-entity pass `html.unescape` that the script applies to hotel names is
modelled by `unescape` below.

Python exceptions (TypeError on `html.unescape(None)`, AttributeError on
`None.find`, TypeError from comparing `None` with `str` during `list.sort`)
are modelled by `Option`: `none` means the corresponding Python call raises.
-/
import Mathlib

namespace AAAHotels

/-- Mirror of `xml.etree.ElementTree.Element`: tag, attribute list (a dict in
Python, so keys are unique; we read the first binding), optional inner text,
and the list of child elements in document order. -/
inductive Element where
  | mk (tag : String) (attrs : List (String × String)) (text : Option String)
      (children : List Element)

def Element.tag : Element → String
  | .mk t _ _ _ => t

def Element.attrs : Element → List (String × String)
  | .mk _ a _ _ => a

def Element.text : Element → Option String
  | .mk _ _ x _ => x

def Element.children : Element → List Element
  | .mk _ _ _ c => c

/-- Mirror of `ET.Element.get`: attribute lookup, `None` when absent. -/
def Element.get (e : Element) (a : String) : Option String :=
  (e.attrs.find? (fun p => p.1 == a)).map (fun p => p.2)

/-- One step of an ElementPath location path: a tag name, optionally with an
attribute-value predicate as in `address[@type='PHYSICAL']`. -/
structure Step where
  tag : String
  attrFilter : Option (String × String)

def stepMatches (s : Step) (e : Element) : Bool :=
  e.tag == s.tag &&
    (match s.attrFilter with
     | none => true
     | some (a, v) => e.get a == some v)

/-- All elements reached from `e` by the relative path `p`, in document order:
this is how ElementPath enumerates matches of paths like `./ratings/ratingCode`
(each step descends one level into children). -/
def findPath : List Step → Element → List Element
  | [], e => [e]
  | s :: rest, e => (e.children.filter (stepMatches s)).flatMap (findPath rest)

/-- Mirror of `ET.Element.find`: the first match of the path in document
order, `None` when there is none. -/
def Element.findFirst (e : Element) (p : List Step) : Option Element :=
  (findPath p e).head?

mutual
/-- All proper descendants of an element in document (preorder) order: the
node set enumerated by `findall` with a `.//` path (the element itself is not
included). -/
def descendants : Element → List Element
  | .mk _ _ _ cs => descList cs

def descList : List Element → List Element
  | [] => []
  | c :: cs => (c :: descendants c) ++ descList cs
end

/-- Mirror of `tree.findall(".//travelItem")`: every `travelItem` element
anywhere below the root, in document order. -/
def travelItems (root : Element) : List Element :=
  (descendants root).filter (fun e => e.tag == "travelItem")

/-- Model of Python `html.unescape`, restricted to the semicolon-terminated
named entities exercised here (`amp`, `lt`, `gt`, `quot`).  Like the original
it makes a single left-to-right pass and does not rescan replaced text:
`&amp;amp;` becomes `&amp;`, exactly as `html.unescape` computes it. -/
def unescapeChars : List Char → List Char
  | [] => []
  | '&' :: 'a' :: 'm' :: 'p' :: ';' :: rest => '&' :: unescapeChars rest
  | '&' :: 'l' :: 't' :: ';' :: rest => '<' :: unescapeChars rest
  | '&' :: 'g' :: 't' :: ';' :: rest => '>' :: unescapeChars rest
  | '&' :: 'q' :: 'u' :: 'o' :: 't' :: ';' :: rest => '"' :: unescapeChars rest
  | c :: rest => c :: unescapeChars rest

def unescape (s : String) : String :=
  ⟨unescapeChars s.data⟩

/-- Mapping of the `address` XML element.  The Python dataclass annotates the
fields as `str`, but every field is populated from `_get_child`, which returns
`None` for a missing child, so the runtime type is `Optional[str]`. -/
structure Address where
  street_address : Option String
  city : Option String
  state : Option String
  postal_code : Option String
  country : Option String
deriving DecidableEq

/-- Mapping of the `travelItem` XML element.  The Python dataclass annotates
`id` and `rating` as `int`, but the annotations are not enforced: `id` is
populated from `element.get("id")` (an `Optional[str]`) and `rating` from
`_get_child` (also `Optional[str]`); `name` is always a `str` because
`html.unescape` raises on `None`. -/
structure Hotel where
  id : Option String
  name : String
  rating : Option String
  address : Address
deriving DecidableEq

/-- The four location paths the script uses. -/
def itemNamePath : List Step := [⟨"itemName", none⟩]

def ratingPath : List Step := [⟨"ratings", none⟩, ⟨"ratingCode", none⟩]

def physicalAddressPath : List Step :=
  [⟨"addresses", none⟩, ⟨"address", some ("type", "PHYSICAL")⟩]

def addressLinePath : List Step := [⟨"addressLine", none⟩]

def cityNamePath : List Step := [⟨"cityName", none⟩]

def stateProvPath : List Step := [⟨"stateProv", none⟩]

def postalCodePath : List Step := [⟨"postalCode", none⟩]

def countryNamePath : List Step := [⟨"countryName", none⟩]

/-- Mirror of `_get_child`: the child's attribute value when `attr` is given,
its inner text otherwise, and `None` when the child does not exist. -/
def get_child (element : Element) (path : List Step) (attr : Option String) :
    Option String :=
  match element.findFirst path with
  | none => none
  | some child =>
    match attr with
    | some a => child.get a
    | none => child.text

/-- Mirror of `_parse_address`.  The Python code calls
`_get_child(address_elem, ...)` without checking `address_elem` for `None`;
when no physical `address` element exists this raises `AttributeError`
(`None` has no attribute `find`), modelled by `none`. -/
def parse_address (element : Element) : Option Address :=
  match element.findFirst physicalAddressPath with
  | none => none
  | some addrElem =>
    some
      { street_address := get_child addrElem addressLinePath none
        city := get_child addrElem cityNamePath none
        state := get_child addrElem stateProvPath (some "code")
        postal_code := get_child addrElem postalCodePath none
        country := get_child addrElem countryNamePath none }

/-- Mirror of `_parse_hotel`.  `html.unescape(None)` raises `TypeError`, so a
`travelItem` without an `itemName` text fails; a failing `_parse_address`
propagates its exception.  `id` and `rating` are stored as returned, with no
numeric conversion and no unescaping. -/
def parse_hotel (element : Element) : Option Hotel :=
  match get_child element itemNamePath none with
  | none => none
  | some nameText =>
    match parse_address element with
    | none => none
    | some addr =>
      some
        { id := element.get "id"
          name := unescape nameText
          rating := get_child element ratingPath none
          address := addr }

/-- Lexicographic comparison of character lists by code point: exactly how
Python compares `str` values (so `"10" < "9"`, as the spec's design notes
observe). -/
def charListLe : List Char → List Char → Bool
  | [], _ => true
  | _ :: _, [] => false
  | a :: as, b :: bs =>
    if a.toNat < b.toNat then true
    else if b.toNat < a.toNat then false
    else charListLe as bs

/-- The key order used by `hotels.sort(key=lambda x: x.id)` when it does not
raise: Python compares `str` keys lexicographically by code point.  The
`none` cases are arbitrary (comparing `None` with anything raises
`TypeError` in Python); `transform` only sorts lists in which they never
arise. -/
def idLe : Option String → Option String → Bool
  | none, _ => true
  | some _, none => false
  | some a, some b => charListLe a.data b.data

def hotelLe (a b : Hotel) : Prop :=
  idLe a.id b.id = true

instance : DecidableRel hotelLe :=
  fun _ _ => inferInstanceAs (Decidable (_ = true))

/-- Mirror of the list comprehension
`[_parse_hotel(t) for t in travel_items]`: the first exception aborts the
whole comprehension. -/
def parseAll : List Element → Option (List Hotel)
  | [] => some []
  | e :: es =>
    match parse_hotel e, parseAll es with
    | some h, some hs => some (h :: hs)
    | _, _ => none

/-- Mirror of `transform` (after `ET.fromstring`): collect every
`travelItem`, parse each, and sort stably ascending by the `id` key.
`list.sort` is a stable sort, and a stable sort ascending with respect to a
total preorder on keys has a unique result, so `List.insertionSort` (also
stable) computes exactly what Timsort returns.  When the list has at least
two elements and some key is `None`, Timsort is guaranteed to compare `None`
against something and raise `TypeError`, modelled by `none`. -/
def transform (root : Element) : Option (List Hotel) :=
  (parseAll (travelItems root)).bind (fun hotels =>
    if 2 ≤ hotels.length ∧ hotels.any (fun h => h.id.isNone) = true then none
    else some (List.insertionSort hotelLe hotels))

/-- JSON values, as produced by `json.dump` of `asdict(record)`. -/
inductive Json where
  | null : Json
  | str : String → Json
  | num : Int → Json
  | arr : List Json → Json
  | obj : List (String × Json) → Json

def optStrToJson : Option String → Json
  | none => .null
  | some s => .str s

/-- `asdict` of an `Address`, field order as declared in the dataclass
(Python dicts preserve insertion order, and `json.dump` emits it). -/
def Address.toJson (a : Address) : Json :=
  .obj
    [("street_address", optStrToJson a.street_address),
     ("city", optStrToJson a.city),
     ("state", optStrToJson a.state),
     ("postal_code", optStrToJson a.postal_code),
     ("country", optStrToJson a.country)]

/-- `asdict` of a `Hotel`, field order as declared in the dataclass. -/
def Hotel.toJson (h : Hotel) : Json :=
  .obj
    [("id", optStrToJson h.id),
     ("name", .str h.name),
     ("rating", optStrToJson h.rating),
     ("address", h.address.toJson)]

/-- The JSON value serialized by the pipeline after the fetch stage:
`json.dump([asdict(r) for r in transform(xml)], f, indent=4)`.  `json.dump`
is a pure function of this value, so equal values give byte-identical
files. -/
def pipelineJson (root : Element) : Option Json :=
  (transform root).map (fun hs => Json.arr (hs.map Hotel.toJson))

/-- Model of `load`: the first component is the JSON value written to the
output file (the file-system side effect itself is outside the embedding);
the second is the function's return value.  The Python body has no `return`
statement, so the function returns `None` — modelled as `none : Option Bool`,
where `some b` would model returning the bool `b` that the signature and
docstring promise. -/
def load (records : List Hotel) : Json × Option Bool :=
  (Json.arr (records.map Hotel.toJson), none)

/-- `true` when the string contains an HTML entity sequence of the shape
ampersand, one or more ASCII letters, semicolon (e.g. `&amp;`). -/
def entityBody : Nat → List Char → Bool
  | _, [] => false
  | seen, c :: cs =>
    if c == ';' then decide (0 < seen)
    else if c.isAlpha then entityBody (seen + 1) cs
    else false

def hasEntitySeqChars : List Char → Bool
  | [] => false
  | '&' :: cs => entityBody 0 cs || hasEntitySeqChars cs
  | _ :: cs => hasEntitySeqChars cs

def hasEntitySequence (s : String) : Bool :=
  hasEntitySeqChars s.data

/-! ### Concrete documents used by counterexamples and witnesses.
These are element trees as `ET.fromstring` would produce them, so XML
entity references in the raw document are already decoded in the `text`
fields (raw `Grand &amp; Hotel` parses to the text `Grand & Hotel`). -/

def elem (tag : String) (attrs : List (String × String)) (text : Option String)
    (children : List Element) : Element :=
  .mk tag attrs text children

/-- A complete physical address block. -/
def sampleAddressBlock : Element :=
  elem "addresses" [] none
    [elem "address" [("type", "PHYSICAL")] none
      [elem "addressLine" [] (some "1 Main St") [],
       elem "cityName" [] (some "Springfield") [],
       elem "stateProv" [("code", "IL")] none [],
       elem "postalCode" [] (some "62701") [],
       elem "countryName" [] (some "USA") []]]

/-- The `travelItem` of the spec's concrete scenario (§8): raw XML text
`Grand &amp; Hotel` is the parsed text `Grand & Hotel`. -/
def sampleItem : Element :=
  elem "travelItem" [("id", "100")] none
    [elem "itemName" [] (some "Grand & Hotel") [],
     elem "ratings" [] none [elem "ratingCode" [] (some "5") []],
     sampleAddressBlock]

def sampleDoc : Element :=
  elem "hotelList" [] none [sampleItem]

/-- A physical `address` element with no sub-fields. -/
def minimalAddressElem : Element :=
  elem "address" [("type", "PHYSICAL")] none []

/-- An empty physical address block: the `address` element exists but has no
sub-fields. -/
def emptyAddressBlock : Element :=
  elem "addresses" [] none [minimalAddressElem]

/-- A minimal parseable item: id, name, empty physical address, no ratings. -/
def minimalItem (id name : String) : Element :=
  elem "travelItem" [("id", id)] none
    [elem "itemName" [] (some name) [], emptyAddressBlock]

/-- Two parseable items in descending id order, to exercise the sort. -/
def twoItemDoc : Element :=
  elem "hotelList" [] none [minimalItem "2" "B Hotel", minimalItem "1" "A Hotel"]

/-- An item with an itemName but no `addresses` block at all. -/
def noAddressItem : Element :=
  elem "travelItem" [("id", "7")] none [elem "itemName" [] (some "Lost Hotel") []]

def noAddressDoc : Element :=
  elem "hotelList" [] none [noAddressItem]

/-- An item with only an id attribute: no `itemName` child. -/
def noNameItem : Element :=
  elem "travelItem" [("id", "8")] none [emptyAddressBlock]

def noNameDoc : Element :=
  elem "hotelList" [] none [noNameItem]

/-- A physical `address` element whose street text contains an HTML entity
sequence. -/
def verbatimAddressElem : Element :=
  elem "address" [("type", "PHYSICAL")] none
    [elem "addressLine" [] (some "&amp; Street") []]

/-- An item whose rating text and street text contain HTML entity sequences,
to show they are carried verbatim. -/
def verbatimItem : Element :=
  elem "travelItem" [("id", "9")] none
    [elem "itemName" [] (some "V Hotel") [],
     elem "ratings" [] none [elem "ratingCode" [] (some "&amp;5") []],
     elem "addresses" [] none [verbatimAddressElem]]

def verbatimDoc : Element :=
  elem "hotelList" [] none [verbatimItem]

/-- An item whose itemName text (after XML parsing) is `&amp;amp;`, i.e. a
doubly-escaped ampersand: one `html.unescape` pass leaves `&amp;`. -/
def doubleEscapedItem : Element :=
  elem "travelItem" [("id", "10")] none
    [elem "itemName" [] (some "&amp;amp;") [], emptyAddressBlock]

def doubleEscapedDoc : Element :=
  elem "hotelList" [] none [doubleEscapedItem]

/-- The record `transform` produces for `minimalItem "1" "A Hotel"`. -/
def hotelA : Hotel :=
  ⟨some "1", "A Hotel", none, ⟨none, none, none, none, none⟩⟩

/-- The record `transform` produces for `minimalItem "2" "B Hotel"`. -/
def hotelB : Hotel :=
  ⟨some "2", "B Hotel", none, ⟨none, none, none, none, none⟩⟩

/-- The record `transform` produces for `verbatimItem`. -/
def hotelV : Hotel :=
  ⟨some "9", "V Hotel", some "&amp;5", ⟨some "&amp; Street", none, none, none, none⟩⟩

/-- The record `transform` produces for `doubleEscapedItem`. -/
def hotelDoubleEscaped : Hotel :=
  ⟨some "10", "&amp;", none, ⟨none, none, none, none, none⟩⟩

/-- The JSON object the code actually serializes for `sampleItem`: the `id`
field is the string `"100"`, carried over from the attribute text. -/
def sampleActualJson : Json :=
  .obj
    [("id", .str "100"),
     ("name", .str "Grand & Hotel"),
     ("rating", .str "5"),
     ("address",
      .obj
        [("street_address", .str "1 Main St"),
         ("city", .str "Springfield"),
         ("state", .str "IL"),
         ("postal_code", .str "62701"),
         ("country", .str "USA")])]

/-- The JSON object the spec's concrete scenario claims for `sampleItem`:
identical except that `id` is the number `100`. -/
def sampleClaimedJson : Json :=
  .obj
    [("id", .num 100),
     ("name", .str "Grand & Hotel"),
     ("rating", .str "5"),
     ("address",
      .obj
        [("street_address", .str "1 Main St"),
         ("city", .str "Springfield"),
         ("state", .str "IL"),
         ("postal_code", .str "62701"),
         ("country", .str "USA")])]

/-! ### Helper lemmas -/

theorem charListLe_refl : ∀ l : List Char, charListLe l l = true := by
  intro l
  induction l with
  | nil => rfl
  | cons a as ih => simp [charListLe, ih]

theorem charListLe_total (a b : List Char) :
    charListLe a b = true ∨ charListLe b a = true := by
  induction a generalizing b with
  | nil => exact Or.inl rfl
  | cons x xs ih =>
    cases b with
    | nil => exact Or.inr rfl
    | cons y ys =>
      rcases Nat.lt_trichotomy x.toNat y.toNat with h | h | h
      · exact Or.inl (by simp [charListLe, h])
      · rcases ih ys with h2 | h2
        · exact Or.inl (by simp [charListLe, h, h2])
        · exact Or.inr (by simp [charListLe, h, h2])
      · exact Or.inr (by simp [charListLe, h])

theorem charListLe_trans (a b c : List Char) (h1 : charListLe a b = true)
    (h2 : charListLe b c = true) : charListLe a c = true := by
  induction a generalizing b c with
  | nil => rfl
  | cons x xs ih =>
    cases b with
    | nil => simp [charListLe] at h1
    | cons y ys =>
      cases c with
      | nil => simp [charListLe] at h2
      | cons z zs =>
        simp only [charListLe] at h1 h2 ⊢
        rcases Nat.lt_trichotomy x.toNat y.toNat with hxy | hxy | hxy
        · rcases Nat.lt_trichotomy y.toNat z.toNat with hyz | hyz | hyz
          · simp [Nat.lt_trans hxy hyz]
          · simp [hyz ▸ hxy]
          · simp [Nat.lt_asymm hyz, hyz] at h2
        · rcases Nat.lt_trichotomy y.toNat z.toNat with hyz | hyz | hyz
          · simp [hxy, hyz]
          · simp [hxy, hyz] at h1 h2 ⊢
            exact ih ys zs h1 h2
          · simp [Nat.lt_asymm hyz, hyz] at h2
        · simp [Nat.lt_asymm hxy, hxy] at h1

theorem idLe_refl (a : Option String) : idLe a a = true := by
  cases a with
  | none => rfl
  | some s => exact charListLe_refl s.data

theorem idLe_total (a b : Option String) : idLe a b = true ∨ idLe b a = true := by
  cases a with
  | none => exact Or.inl rfl
  | some s =>
    cases b with
    | none => exact Or.inr rfl
    | some t => exact charListLe_total s.data t.data

theorem idLe_trans {a b c : Option String} (h1 : idLe a b = true)
    (h2 : idLe b c = true) : idLe a c = true := by
  cases a with
  | none => rfl
  | some s =>
    cases b with
    | none => exact absurd h1 (by simp [idLe])
    | some t =>
      cases c with
      | none => exact absurd h2 (by simp [idLe])
      | some u => exact charListLe_trans s.data t.data u.data h1 h2


theorem parseAll_length : ∀ {es : List Element} {hs : List Hotel},
    parseAll es = some hs → hs.length = es.length := by
  intro es
  induction es with
  | nil =>
    intro hs h
    simp [parseAll] at h
    simp [← h]
  | cons e es ih =>
    intro hs h
    unfold parseAll at h
    cases hp : parse_hotel e with
    | none => rw [hp] at h; exact absurd h (by simp)
    | some x =>
      rw [hp] at h
      cases hr : parseAll es with
      | none => rw [hr] at h; exact absurd h (by simp)
      | some xs =>
        rw [hr] at h
        simp only [Option.some.injEq] at h
        subst h
        simp [List.length_cons, ih hr]

theorem parseAll_none_of_mem : ∀ {es : List Element} {t : Element},
    t ∈ es → parse_hotel t = none → parseAll es = none := by
  intro es
  induction es with
  | nil => intro t hmem _; cases hmem
  | cons e es ih =>
    intro t hmem hp
    unfold parseAll
    cases hmem with
    | head => rw [hp]
    | tail _ hmem' =>
      rw [ih hmem' hp]
      cases parse_hotel e <;> rfl

theorem transform_eq_insertionSort {root : Element} {l hs : List Hotel}
    (hparse : parseAll (travelItems root) = some l)
    (htrans : transform root = some hs) :
    hs = List.insertionSort hotelLe l := by
  unfold transform at htrans
  rw [hparse] at htrans
  simp only [Option.some_bind] at htrans
  by_cases hc : 2 ≤ l.length ∧ l.any (fun h => h.id.isNone) = true
  · rw [if_pos hc] at htrans
    exact absurd htrans (by simp)
  · rw [if_neg hc] at htrans
    simp only [Option.some.injEq] at htrans
    exact htrans.symm

theorem filter_orderedInsert (x : Hotel) (k : Option String) :
    ∀ l : List Hotel,
      (List.orderedInsert hotelLe x l).filter (fun h => decide (h.id = k)) =
        if x.id = k then
          x :: l.filter (fun h => decide (h.id = k))
        else l.filter (fun h => decide (h.id = k)) := by
  intro l
  induction l with
  | nil =>
    by_cases hxk : x.id = k <;> simp [List.orderedInsert, hxk]
  | cons y ys ih =>
    rw [List.orderedInsert]
    by_cases hxy : hotelLe x y
    · rw [if_pos hxy]
      by_cases hxk : x.id = k <;> simp [List.filter_cons, hxk]
    · rw [if_neg hxy]
      by_cases hyk : y.id = k
      · by_cases hxk : x.id = k
        · exfalso
          apply hxy
          show idLe x.id y.id = true
          rw [hxk, hyk]
          exact idLe_refl k
        · simp [List.filter_cons, hyk, hxk, ih]
      · by_cases hxk : x.id = k <;> simp [List.filter_cons, hyk, hxk, ih]

theorem filter_insertionSort (k : Option String) :
    ∀ l : List Hotel,
      (List.insertionSort hotelLe l).filter (fun h => decide (h.id = k)) =
        l.filter (fun h => decide (h.id = k)) := by
  intro l
  induction l with
  | nil => rfl
  | cons x xs ih =>
    rw [List.insertionSort, filter_orderedInsert, List.filter_cons]
    by_cases hxk : x.id = k <;> simp [hxk, ih]

theorem parse_address_none_of_no_physical {t : Element}
    (hmiss : t.findFirst physicalAddressPath = none) :
    parse_address t = none := by
  unfold parse_address
  rw [hmiss]

theorem parse_hotel_none_of_no_address {t : Element}
    (hmiss : t.findFirst physicalAddressPath = none) :
    parse_hotel t = none := by
  unfold parse_hotel
  simp only [parse_address_none_of_no_physical hmiss]
  cases get_child t itemNamePath none <;> rfl

theorem parse_hotel_none_of_no_name {t : Element}
    (hname : get_child t itemNamePath none = none) :
    parse_hotel t = none := by
  unfold parse_hotel
  rw [hname]

/-! ### Claim theorems -/

/-- C6: a `travelItem` with no `address` sub-element of type `PHYSICAL`
makes `transform` fail hard: `_parse_address` calls `find` on `None`
(an `AttributeError`, modelled by `none`), so the whole run aborts rather
than producing a record with a null address. -/
theorem transform_none_of_missing_physical_address (root t : Element)
    (hmem : t ∈ travelItems root)
    (hmiss : t.findFirst physicalAddressPath = none) :
    transform root = none := by
  unfold transform
  rw [parseAll_none_of_mem hmem (parse_hotel_none_of_no_address hmiss)]
  rfl

/-- Witness for C6: a concrete document whose single `travelItem` has no
`addresses` block at all; `transform` aborts on it. -/
theorem transform_none_of_missing_physical_address_witness :
    transform noAddressDoc = none :=
  transform_none_of_missing_physical_address noAddressDoc noAddressItem
    (List.Mem.head _) rfl

/-- C7: the spec (and the function's own docstring and `-> bool` annotation)
say `load` returns a boolean reporting that the data was written; the body
has no `return` statement, so the function returns `None` for every record
list — it reports nothing. -/
theorem load_returns_no_success_value (records : List Hotel) :
    (load records).2 = none :=
  rfl

/-- C8: the pipeline after the fetch is deterministic.  `transform` and the
serialization are modelled by the pure function `pipelineJson` with no other
state, and the source contains no randomness, clock access, or
iteration-order dependence (Python dicts iterate in insertion order), so two
runs on the same input produce the same JSON value and hence byte-identical
serialized output. -/
theorem pipeline_deterministic (root : Element) :
    pipelineJson root = pipelineJson root :=
  rfl

/-- C10: a `travelItem` with no `itemName` child (or one with empty text)
crashes the run: `_get_child` returns `None`, and `html.unescape(None)`
raises `TypeError` (modelled by `none`), unlike the other optional children
which merely yield null fields. -/
theorem transform_none_of_missing_itemName (root t : Element)
    (hmem : t ∈ travelItems root)
    (hname : get_child t itemNamePath none = none) :
    transform root = none := by
  unfold transform
  rw [parseAll_none_of_mem hmem (parse_hotel_none_of_no_name hname)]
  rfl

/-- Witness for C10: a concrete document whose single `travelItem` has only
an `id` attribute and an (empty) address block, but no `itemName`;
`transform` aborts. -/
theorem transform_none_of_missing_itemName_witness :
    transform noNameDoc = none :=
  transform_none_of_missing_itemName noNameDoc noNameItem
    (List.Mem.head _) rfl

/-- C2: whenever `transform` returns a list, it is sorted ascending by the
`id` field under the order of the type the identifier is parsed as (strings
compared lexicographically by code point, Python's `str` order), and the sort
is stable: the records carrying any fixed identifier appear in the same order
as in `l`, the document-order list produced by the parse stage. -/
theorem transform_sorted_and_stable (root : Element) (l hs : List Hotel)
    (k : Option String)
    (hparse : parseAll (travelItems root) = some l)
    (htrans : transform root = some hs) :
    List.Pairwise hotelLe hs ∧
      hs.filter (fun x => decide (x.id = k)) =
        l.filter (fun x => decide (x.id = k)) := by
  have he := transform_eq_insertionSort hparse htrans
  subst he
  have htotal : IsTotal Hotel hotelLe := ⟨fun a b => idLe_total a.id b.id⟩
  have htrans : IsTrans Hotel hotelLe := ⟨fun _ _ _ h1 h2 => idLe_trans h1 h2⟩
  exact ⟨List.sorted_insertionSort hotelLe l, filter_insertionSort k l⟩

/-- Witness for C2: the two-item document whose ids arrive as "2", "1" is
returned as "1", "2". -/
theorem transform_sorted_and_stable_witness :
    List.Pairwise hotelLe [hotelA, hotelB] ∧
      ([hotelA, hotelB].filter (fun x => decide (x.id = some "1"))) =
        ([hotelB, hotelA].filter (fun x => decide (x.id = some "1"))) :=
  transform_sorted_and_stable twoItemDoc [hotelB, hotelA] [hotelA, hotelB]
    (some "1") rfl rfl

/-- C3: whenever `transform` returns a list, it has exactly one record per
`travelItem` element found anywhere in the tree, so the serialized JSON
array has exactly as many elements as the document has `travelItem`s. -/
theorem transform_length (root : Element) (hs : List Hotel)
    (htrans : transform root = some hs) :
    hs.length = (travelItems root).length := by
  cases hparse : parseAll (travelItems root) with
  | none =>
    unfold transform at htrans
    rw [hparse] at htrans
    exact absurd htrans (by simp)
  | some l =>
    have he := transform_eq_insertionSort hparse htrans
    rw [he, List.length_insertionSort]
    exact parseAll_length hparse

/-- Witness for C3: the two-item document yields a two-record list. -/
theorem transform_length_witness :
    ([hotelA, hotelB] : List Hotel).length = (travelItems twoItemDoc).length :=
  transform_length twoItemDoc [hotelA, hotelB] rfl

/-- C1 (counterexample): on the spec's concrete scenario the code produces
exactly one record, but it serializes with `"id": "100"` (a string), not
`"id": 100` (a number): `element.get("id")` returns the attribute text and
no numeric cast is ever applied, so the serialized object differs from the
one the claim specifies. -/
theorem sample_id_serialized_as_string :
    pipelineJson sampleDoc = some (Json.arr [sampleActualJson]) ∧
    sampleActualJson ≠ sampleClaimedJson := by
  constructor
  · rfl
  · intro h
    simp [sampleActualJson, sampleClaimedJson] at h

/-- C1 (amended): the spec's concrete scenario produces exactly one record,
serializing to the claimed JSON object except that the `id` field is the
string `"100"` rather than the number `100`. -/
theorem sample_scenario_output :
    pipelineJson sampleDoc = some (Json.arr [sampleActualJson]) :=
  rfl

/-- C4 (counterexample): an `itemName` whose parsed text is `&amp;amp;`
(a doubly-escaped ampersand) comes out as `&amp;`: the single `html.unescape`
pass decodes one level only, so the output name still contains an HTML
entity sequence, contradicting the claim that names contain none. -/
theorem double_escaped_name_keeps_entity :
    transform doubleEscapedDoc = some [hotelDoubleEscaped] ∧
    hotelDoubleEscaped.name = "&amp;" ∧
    hasEntitySequence hotelDoubleEscaped.name = true ∧
    hasEntitySequence "&amp;amp;" = true :=
  ⟨rfl, rfl, rfl, rfl⟩

/-- C4 (amended): every parsed record's name is the single-pass
HTML-unescape of the `itemName` text (so `&amp;` decodes to `&`); the result
can still contain an entity sequence when the input was doubly escaped. -/
theorem name_is_single_pass_unescape (e : Element) (t : String) (h : Hotel)
    (ht : get_child e itemNamePath none = some t)
    (hp : parse_hotel e = some h) :
    h.name = unescape t := by
  unfold parse_hotel at hp
  simp only [ht] at hp
  cases ha : parse_address e with
  | none =>
    simp only [ha] at hp
    exact Option.noConfusion hp
  | some a =>
    simp only [ha, Option.some.injEq] at hp
    rw [← hp]

/-- Witness for C4 (amended), at the doubly-escaped document. -/
theorem name_is_single_pass_unescape_witness :
    hotelDoubleEscaped.name = unescape "&amp;amp;" :=
  name_is_single_pass_unescape doubleEscapedItem "&amp;amp;" hotelDoubleEscaped
    rfl rfl

/-- C5: a `travelItem` with an `id` attribute, an `itemName` text and a
physical address block parses successfully whatever subset of the optional
children (`ratings/ratingCode`, `addressLine`, `cityName`, `stateProv`,
`postalCode`, `countryName`) is missing; each missing child yields a null
field instead of an exception. -/
theorem parse_hotel_missing_optional_children (e a : Element) (t : String)
    (_hid : (e.get "id").isSome = true)
    (hname : get_child e itemNamePath none = some t)
    (haddr : e.findFirst physicalAddressPath = some a) :
    ∃ h, parse_hotel e = some h ∧
      (get_child e ratingPath none = none → h.rating = none) ∧
      (get_child a addressLinePath none = none → h.address.street_address = none) ∧
      (get_child a cityNamePath none = none → h.address.city = none) ∧
      (get_child a stateProvPath (some "code") = none → h.address.state = none) ∧
      (get_child a postalCodePath none = none → h.address.postal_code = none) ∧
      (get_child a countryNamePath none = none → h.address.country = none) := by
  unfold parse_hotel parse_address
  simp only [hname, haddr]
  refine ⟨_, rfl, ?_, ?_, ?_, ?_, ?_, ?_⟩ <;> intro hm <;> exact hm

/-- Witness for C5: the minimal item (id, name, empty physical address, no
ratings) parses with every optional field null. -/
theorem parse_hotel_missing_optional_children_witness :
    ∃ h, parse_hotel (minimalItem "1" "A Hotel") = some h ∧
      (get_child (minimalItem "1" "A Hotel") ratingPath none = none →
        h.rating = none) ∧
      (get_child minimalAddressElem addressLinePath none = none →
        h.address.street_address = none) ∧
      (get_child minimalAddressElem cityNamePath none = none →
        h.address.city = none) ∧
      (get_child minimalAddressElem stateProvPath (some "code") = none →
        h.address.state = none) ∧
      (get_child minimalAddressElem postalCodePath none = none →
        h.address.postal_code = none) ∧
      (get_child minimalAddressElem countryNamePath none = none →
        h.address.country = none) :=
  parse_hotel_missing_optional_children (minimalItem "1" "A Hotel")
    minimalAddressElem "A Hotel" rfl rfl rfl

/-- C9: HTML-entity unescaping touches only the name.  The rating and the
five address fields of a parsed record are exactly what `_get_child` read
from the document (text or `code` attribute), carried verbatim with any
entity sequences left un-decoded. -/
theorem rating_and_address_verbatim (e a : Element) (t : String) (h : Hotel)
    (hname : get_child e itemNamePath none = some t)
    (haddr : e.findFirst physicalAddressPath = some a)
    (hp : parse_hotel e = some h) :
    h.rating = get_child e ratingPath none ∧
    h.address.street_address = get_child a addressLinePath none ∧
    h.address.city = get_child a cityNamePath none ∧
    h.address.state = get_child a stateProvPath (some "code") ∧
    h.address.postal_code = get_child a postalCodePath none ∧
    h.address.country = get_child a countryNamePath none := by
  unfold parse_hotel parse_address at hp
  simp only [hname, haddr, Option.some.injEq] at hp
  rw [← hp]
  exact ⟨rfl, rfl, rfl, rfl, rfl, rfl⟩

/-- Witness for C9: the record parsed from `verbatimItem` keeps the entity
sequences `&amp;5` and `&amp; Street` in its rating and street fields. -/
theorem rating_and_address_verbatim_witness :
    hotelV.rating = get_child verbatimItem ratingPath none ∧
    hotelV.address.street_address =
      get_child verbatimAddressElem addressLinePath none ∧
    hotelV.address.city = get_child verbatimAddressElem cityNamePath none ∧
    hotelV.address.state =
      get_child verbatimAddressElem stateProvPath (some "code") ∧
    hotelV.address.postal_code =
      get_child verbatimAddressElem postalCodePath none ∧
    hotelV.address.country =
      get_child verbatimAddressElem countryNamePath none :=
  rating_and_address_verbatim verbatimItem verbatimAddressElem "V Hotel" hotelV
    rfl rfl rfl

end AAAHotels
